import Mathlib

/-
Shallow embedding of src/tsk3/auto/db_sqlite.cpp (The Sleuth Kit, class
TskDbSqlite).  SQLite tables are modelled as append-only lists of typed
rows; SQLite rowid assignment for an INTEGER PRIMARY KEY column that is
inserted as NULL is the largest existing id plus one (the table is
append-only, so this matches the engine).  NULL column values are Option
none.  Machine integers carry no arithmetic in the source except the
printf conversions in addFsBlockInfo, which are modelled explicitly via
int64OfUInt64 / uint64OfInt64.  Environmental failures of sqlite3_exec
(I/O faults) are outside the model; constraint checking of the one
declared constraint of tsk_objects (the PRIMARY KEY on obj_id) is
modelled in objInsertOk.
-/

/-- Enumeration DB_OBJECT_TYPES from tsk_db_sqlite.h: the type tag stored
in the tsk_objects table. -/
inductive DB_OBJECT_TYPES where
  | DB_OBJECT_TYPE_IMG
  | DB_OBJECT_TYPE_VS
  | DB_OBJECT_TYPE_VOL
  | DB_OBJECT_TYPE_FS
  | DB_OBJECT_TYPE_FILE
  deriving DecidableEq, Repr

/-- Enumeration DB_FILES_TYPES from tsk_db_sqlite.h: the source kind
stored in the type column of tsk_files. -/
inductive DB_FILES_TYPES where
  | DB_FILES_TYPE_FS
  | DB_FILES_TYPE_CARVED
  | DB_FILES_TYPE_DERIVED
  | DB_FILES_TYPE_LOCAL
  deriving DecidableEq, Repr

/-- TSK_FS_ATTR_TYPE_NTFS_IDXROOT from tsk_fs.h (0x90). -/
def TSK_FS_ATTR_TYPE_NTFS_IDXROOT : Int := 144

/-- TSK_FS_NAME_TYPE_REG from tsk_fs.h: directory-entry type of a regular file. -/
def TSK_FS_NAME_TYPE_REG : Int := 5

/-- TSK_FS_META_TYPE_REG from tsk_fs.h: metadata-record type of a regular file. -/
def TSK_FS_META_TYPE_REG : Int := 1

/-- TSK_FS_NAME_FLAG_UNALLOC from tsk_fs.h: the unallocated name flag. -/
def TSK_FS_NAME_FLAG_UNALLOC : Int := 2

/-- The single quote character, special in SQLite string literals. -/
def quoteChar : Char := Char.ofNat 39

/-- The byte sequence of the well-known NTFS index-root stream name. -/
def i30 : List Char := ['$', 'I', '3', '0']

/-- The escaping loop of TskDbSqlite::addFile / addCarvedFileInfo: copy
bytes while doubling every quote character, advancing a write index j
that is checked against the buffer bound nlen before each input byte (the
check mirrors the for-loop condition of the source; the two writes of a
doubled quote are not re-checked, exactly as in the source). -/
def escWhile : List Char → Nat → Nat → List Char
  | [], _, _ => []
  | c :: rest, j, nlen =>
    if j < nlen then
      if c = quoteChar then quoteChar :: quoteChar :: escWhile rest (j + 2) nlen
      else c :: escWhile rest (j + 1) nlen
    else []

/-- Unbounded form of the escaping loop: double every quote character and
preserve every other byte. -/
def sqlEscape : List Char → List Char
  | [] => []
  | c :: rest =>
    if c = quoteChar then quoteChar :: quoteChar :: sqlEscape rest
    else c :: sqlEscape rest

/-- Collapse every doubled quote character back to a single one; the
read-back direction of the escaping. -/
def sqlUnescape : List Char → List Char
  | [] => []
  | c :: rest =>
    if c = quoteChar then
      match rest with
      | c2 :: rest2 =>
        if c2 = quoteChar then quoteChar :: sqlUnescape rest2
        else c :: sqlUnescape (c2 :: rest2)
      | [] => [c]
    else c :: sqlUnescape rest

theorem sqlEscape_length_le (s : List Char) : (sqlEscape s).length ≤ 2 * s.length := by
  induction s with
  | nil => simp [sqlEscape]
  | cons c s ih =>
    by_cases hc : c = quoteChar <;> simp [sqlEscape, hc] <;> omega

/-- Under the bound actually supplied by the source (j plus twice the
remaining input fits in nlen plus one), the bounded loop never cuts the
input and agrees with the unbounded escaping. -/
theorem escWhile_eq (s : List Char) : ∀ j nlen : Nat, j + 2 * s.length ≤ nlen + 1 →
    escWhile s j nlen = sqlEscape s := by
  induction s with
  | nil => intro j nlen _; rfl
  | cons c s ih =>
    intro j nlen h
    have hlen : (c :: s).length = s.length + 1 := rfl
    rw [hlen] at h
    have hj : j < nlen := by omega
    by_cases hc : c = quoteChar
    · have h2 := ih (j + 2) nlen (by omega)
      simp [escWhile, hj, hc, sqlEscape, h2]
    · have h1 := ih (j + 1) nlen (by omega)
      simp [escWhile, hj, hc, sqlEscape, h1]

theorem sqlUnescape_sqlEscape_append (s t : List Char) :
    sqlUnescape (sqlEscape s ++ t) = s ++ sqlUnescape t := by
  induction s with
  | nil => rfl
  | cons c s ih =>
    by_cases hc : c = quoteChar
    · subst hc
      simp [sqlEscape, List.cons_append, sqlUnescape, ih]
    · rw [show sqlEscape (c :: s) = c :: sqlEscape s from by simp [sqlEscape, hc],
        List.cons_append, sqlUnescape.eq_def]
      simp [hc, ih]

theorem sqlUnescape_sqlEscape (s : List Char) : sqlUnescape (sqlEscape s) = s := by
  have h := sqlUnescape_sqlEscape_append s []
  simpa [sqlUnescape] using h

/-- Display-name construction of TskDbSqlite::addFile: escape the file
name into a buffer of nlen = 2 * (len + attr_nlen) bytes, then, when
attr_nlen is positive, append a colon and the escaped first attr_nlen
bytes of the attribute-stream name, continuing the same write index. -/
def buildName (fname attrName : List Char) (attr_nlen : Nat) : List Char :=
  let nlen := 2 * (fname.length + attr_nlen)
  let base := escWhile fname 0 nlen
  if 0 < attr_nlen then
    base ++ ':' :: escWhile (attrName.take attr_nlen) (base.length + 1) nlen
  else base

theorem buildName_eq (fname attrName : List Char) (attr_nlen : Nat)
    (h : attr_nlen ≤ attrName.length) :
    buildName fname attrName attr_nlen =
      sqlEscape fname ++
        (if 0 < attr_nlen then ':' :: sqlEscape (attrName.take attr_nlen) else []) := by
  have hbase : escWhile fname 0 (2 * (fname.length + attr_nlen)) = sqlEscape fname :=
    escWhile_eq fname 0 (2 * (fname.length + attr_nlen)) (by omega)
  by_cases hp : 0 < attr_nlen
  · have hlen : (sqlEscape fname).length ≤ 2 * fname.length := sqlEscape_length_le fname
    have htake : (attrName.take attr_nlen).length = attr_nlen := by
      rw [List.length_take]; omega
    have hattr : escWhile (attrName.take attr_nlen) ((sqlEscape fname).length + 1)
        (2 * (fname.length + attr_nlen)) = sqlEscape (attrName.take attr_nlen) :=
      escWhile_eq (attrName.take attr_nlen) ((sqlEscape fname).length + 1)
        (2 * (fname.length + attr_nlen)) (by rw [htake]; omega)
    simp only [buildName, hbase, if_pos hp, hattr]
  · simp only [buildName, hbase, if_neg hp, List.append_nil]

/-- Reinterpretation of a uint64 value as a signed two-complement int64,
the effect of printing a uint64_t argument with a signed conversion. -/
def int64OfUInt64 (n : Nat) : Int :=
  if n < 2 ^ 63 then (n : Int) else (n : Int) - 2 ^ 64

/-- Reinterpretation of an int64 value as an unsigned uint64, the effect
of printing an int64_t argument with an unsigned conversion. -/
def uint64OfInt64 (i : Int) : Nat := (i % 2 ^ 64).toNat

/-- Decimal digits of a natural number, as printed by an unsigned printf
conversion. -/
def natDec (n : Nat) : List Char := Nat.toDigits 10 n

/-- Decimal rendering of an integer, as printed by a signed printf
conversion. -/
def intDec (i : Int) : List Char :=
  if i < 0 then '-' :: Nat.toDigits 10 i.natAbs else Nat.toDigits 10 i.toNat

/-- One row of tsk_objects: the Object Registry table of
TskDbSqlite::initialize, CREATE TABLE tsk_objects (obj_id INTEGER
PRIMARY KEY, par_obj_id INTEGER, type INTEGER) — note that par_obj_id
carries no FOREIGN KEY or other constraint. -/
structure TskObject where
  obj_id : Int
  par_obj_id : Option Int
  ty : DB_OBJECT_TYPES
  deriving DecidableEq, Repr

/-- One row of tsk_image_info. -/
structure ImageInfoRow where
  obj_id : Int
  ty : Int
  ssize : Int
  deriving DecidableEq, Repr

/-- One row of tsk_vs_info. -/
structure VsInfoRow where
  obj_id : Int
  vs_type : Int
  img_offset : Int
  block_size : Int
  deriving DecidableEq, Repr

/-- One row of tsk_vs_parts. -/
structure VsPartRow where
  obj_id : Int
  addr : Int
  start : Int
  length : Int
  desc : List Char
  flags : Int
  deriving DecidableEq, Repr

/-- One row of tsk_fs_info. -/
structure FsInfoRow where
  obj_id : Int
  img_offset : Int
  fs_type : Int
  block_size : Int
  block_count : Int
  root_inum : Nat
  first_inum : Nat
  last_inum : Nat
  deriving DecidableEq, Repr

/-- One row of tsk_files, as written by TskDbSqlite::addFile and
TskDbSqlite::addCarvedFileInfo.  Columns that those writers can set to
SQL NULL are Options. -/
structure TskFileRow where
  fs_obj_id : Int
  obj_id : Int
  ftype : DB_FILES_TYPES
  attr_type : Option Int
  attr_id : Option Int
  name : List Char
  meta_addr : Option Nat
  dir_type : Int
  meta_type : Int
  dir_flags : Int
  meta_flags : Int
  size : Option Int
  crtime : Option Int
  ctime : Option Int
  atime : Option Int
  mtime : Option Int
  mode : Option Int
  uid : Option Int
  gid : Option Int
  deriving DecidableEq, Repr

/-- One row of tsk_file_layout, as written by TskDbSqlite::addFsBlockInfo.
The byte_start column is written with a signed int64 printf conversion
and the obj_id column with an unsigned one, so the stored values are the
corresponding reinterpretations of the arguments. -/
structure TskLayoutRow where
  fs_id : Int
  byte_start : Int
  byte_len : Nat
  obj_id : Nat
  deriving DecidableEq, Repr

/-- The database contents of one session plus the count of executions of
the prepared parent-lookup statement m_selectFileIdByMetaAddr (the
lookups field counts sqlite3_step calls on it, so that claims about
"zero lookup queries performed" are expressible). -/
structure DbState where
  objects : List TskObject
  image_info : List ImageInfoRow
  vs_info : List VsInfoRow
  vs_parts : List VsPartRow
  fs_info : List FsInfoRow
  files : List TskFileRow
  layout : List TskLayoutRow
  lookups : Nat
  deriving DecidableEq, Repr

/-- The empty database produced by TskDbSqlite::initialize (schema rows
such as tsk_db_info are not modelled; no claim concerns them). -/
def initState : DbState :=
  { objects := [], image_info := [], vs_info := [], vs_parts := [], fs_info := [],
    files := [], layout := [], lookups := 0 }

/-- Fold step for the largest existing obj_id. -/
def objMax (a : Int) (o : TskObject) : Int := max a o.obj_id

/-- Largest obj_id present in tsk_objects (0 when empty); SQLite assigns
rowid maxObjId + 1 to an INSERT with NULL obj_id on this append-only
table. -/
def maxObjId (objs : List TskObject) : Int := objs.foldl objMax 0

/-- Constraint check of the INSERT into tsk_objects: the only declared
constraint is the PRIMARY KEY on obj_id. -/
def objInsertOk (objs : List TskObject) (o : TskObject) : Bool :=
  !objs.any (fun x => x.obj_id == o.obj_id)

/-- The INSERT INTO tsk_objects (obj_id, par_obj_id, type) VALUES
(NULL, par, ty) shared by TskDbSqlite::addObject and
TskDbSqlite::addImageInfo, followed by sqlite3_last_insert_rowid.
Returns none when the insert violates a constraint (mapped to the C
return code 1). -/
def insertTskObject (st : DbState) (par : Option Int) (t : DB_OBJECT_TYPES) :
    DbState × Option Int :=
  let o : TskObject := ⟨maxObjId st.objects + 1, par, t⟩
  if objInsertOk st.objects o then
    ({ st with objects := st.objects ++ [o] }, some o.obj_id)
  else (st, none)

/-- TskDbSqlite::addObject: insert one tsk_objects row with the given
parent object id and report the fresh object id. -/
def addObject (t : DB_OBJECT_TYPES) (parObjId : Int) (st : DbState) :
    DbState × Option Int :=
  insertTskObject st (some parObjId) t

/-- TskDbSqlite::addImageInfo: insert a tsk_objects row with NULL parent
and type DB_OBJECT_TYPE_IMG, then the tsk_image_info attribute row. -/
def addImageInfo (ty ssize : Int) (st : DbState) : DbState × Option Int :=
  match insertTskObject st none .DB_OBJECT_TYPE_IMG with
  | (st1, some objId) =>
    ({ st1 with image_info := st1.image_info ++ [⟨objId, ty, ssize⟩] }, some objId)
  | (st1, none) => (st1, none)

/-- The fields of TSK_VS_INFO read by TskDbSqlite::addVsInfo. -/
structure VsData where
  vstype : Int
  offset : Int
  block_size : Int
  deriving DecidableEq, Repr

/-- TskDbSqlite::addVsInfo. -/
def addVsInfo (v : VsData) (parObjId : Int) (st : DbState) : DbState × Option Int :=
  match addObject .DB_OBJECT_TYPE_VS parObjId st with
  | (st1, some objId) =>
    ({ st1 with vs_info := st1.vs_info ++ [⟨objId, v.vstype, v.offset, v.block_size⟩] },
      some objId)
  | (st1, none) => (st1, none)

/-- The fields of TSK_VS_PART_INFO read by TskDbSqlite::addVolumeInfo. -/
structure VsPartData where
  addr : Int
  start : Int
  len : Int
  desc : List Char
  flags : Int
  deriving DecidableEq, Repr

/-- TskDbSqlite::addVolumeInfo. -/
def addVolumeInfo (p : VsPartData) (parObjId : Int) (st : DbState) :
    DbState × Option Int :=
  match addObject .DB_OBJECT_TYPE_VOL parObjId st with
  | (st1, some objId) =>
    ({ st1 with vs_parts := st1.vs_parts ++
        [⟨objId, p.addr, p.start, p.len, p.desc, p.flags⟩] }, some objId)
  | (st1, none) => (st1, none)

/-- The fields of TSK_FS_INFO read by TskDbSqlite::addFsInfo. -/
structure FsData where
  offset : Int
  ftype : Int
  block_size : Int
  block_count : Int
  root_inum : Nat
  first_inum : Nat
  last_inum : Nat
  deriving DecidableEq, Repr

/-- TskDbSqlite::addFsInfo. -/
def addFsInfo (f : FsData) (parObjId : Int) (st : DbState) : DbState × Option Int :=
  match addObject .DB_OBJECT_TYPE_FS parObjId st with
  | (st1, some objId) =>
    ({ st1 with fs_info := st1.fs_info ++
        [⟨objId, f.offset, f.ftype, f.block_size, f.block_count,
          f.root_inum, f.first_inum, f.last_inum⟩] }, some objId)
  | (st1, none) => (st1, none)

/-- The fields of TSK_FS_NAME read by addFile / addFsFile: the raw name
bytes, the metadata address of the record, the metadata address of its
parent directory, and the directory-entry type and flags. -/
structure FsName where
  nm : List Char
  meta_addr : Nat
  par_addr : Nat
  ntype : Int
  flags : Int
  deriving DecidableEq, Repr

/-- The fields of TSK_FS_META read by addFile.  Timestamps and the other
scalars are modelled as unbounded integers; the source performs no
arithmetic on them. -/
structure FsMeta where
  mtime : Int
  atime : Int
  ctime : Int
  crtime : Int
  size : Int
  mtype : Int
  flags : Int
  mode : Int
  gid : Int
  uid : Int
  deriving DecidableEq, Repr

/-- The portion of TSK_FS_FILE read by addFile / addFsFile: the optional
name record, the optional metadata record, and root_inum of the owning
TSK_FS_INFO. -/
structure FsFile where
  name : Option FsName
  meta : Option FsMeta
  root_inum : Nat
  deriving DecidableEq, Repr

/-- The fields of TSK_FS_ATTR read by addFile: attribute type, id and
optional stream name. -/
structure FsAttr where
  atype : Int
  id : Int
  nm : Option (List Char)
  deriving DecidableEq, Repr

/-- The attr_nlen computation of addFile: the stream-name length, except
that a missing name, or the NTFS index-root attribute whose name is
exactly $I30, contributes zero. -/
def attrNLen (fsAttr : Option FsAttr) : Nat :=
  match fsAttr with
  | none => 0
  | some a =>
    match a.nm with
    | none => 0
    | some an =>
      if ¬(a.atype = TSK_FS_ATTR_TYPE_NTFS_IDXROOT) ∨ ¬(an = i30) then an.length
      else 0

/-- The stream-name bytes handed to the escaping loop by addFile. -/
def attrNameOf (fsAttr : Option FsAttr) : List Char :=
  match fsAttr with
  | none => []
  | some a =>
    match a.nm with
    | none => []
    | some an => an

/-- Numeric values of the DB_FILES_TYPES enumeration (tsk_db_sqlite.h
declares the enumerators in this order with default C enum values). -/
def dbFilesTypeVal : DB_FILES_TYPES → Int
  | .DB_FILES_TYPE_FS => 0
  | .DB_FILES_TYPE_CARVED => 1
  | .DB_FILES_TYPE_DERIVED => 2
  | .DB_FILES_TYPE_LOCAL => 3

/-- The SQL keyword NULL as embedded by addCarvedFileInfo. -/
def nullText : List Char := ['N', 'U', 'L', 'L']

/-- The fixed text shared by both tsk_files INSERT statements of the
source, up to and including the opening parenthesis of the VALUES list
(db_sqlite.cpp:576 and 721 spell out the identical column list). -/
def tskFilesInsertPrefix : List Char :=
  ("INSERT INTO tsk_files (fs_obj_id, obj_id, type, attr_type, attr_id, name, meta_addr, dir_type, meta_type, dir_flags, meta_flags, size, crtime, ctime, atime, mtime, mode, gid, uid) VALUES (").toList

/-- The attr_type value addFile prints: the attribute type, 0 when no
attribute is given. -/
def attrTypeOf (fsAttr : Option FsAttr) : Int :=
  match fsAttr with | some a => a.atype | none => 0

/-- The attr_id value addFile prints: the attribute id, 0 when no
attribute is given. -/
def attrIdOf (fsAttr : Option FsAttr) : Int :=
  match fsAttr with | some a => a.id | none => 0

/-- meta_type as addFile prints it (0 when the record has no metadata). -/
def metaTypeOf (ff : FsFile) : Int :=
  match ff.meta with | some m => m.mtype | none => 0

/-- meta_flags as addFile prints it (0 when no metadata). -/
def metaFlagsOf (ff : FsFile) : Int :=
  match ff.meta with | some m => m.flags | none => 0

/-- size as addFile reads it (0 when no metadata). -/
def metaSizeOf (ff : FsFile) : Int :=
  match ff.meta with | some m => m.size | none => 0

/-- crtime as addFile reads it (0 when no metadata). -/
def metaCrtimeOf (ff : FsFile) : Int :=
  match ff.meta with | some m => m.crtime | none => 0

/-- ctime as addFile reads it (0 when no metadata). -/
def metaCtimeOf (ff : FsFile) : Int :=
  match ff.meta with | some m => m.ctime | none => 0

/-- atime as addFile reads it (0 when no metadata). -/
def metaAtimeOf (ff : FsFile) : Int :=
  match ff.meta with | some m => m.atime | none => 0

/-- mtime as addFile reads it (0 when no metadata). -/
def metaMtimeOf (ff : FsFile) : Int :=
  match ff.meta with | some m => m.mtime | none => 0

/-- mode as addFile reads it (0 when no metadata). -/
def metaModeOf (ff : FsFile) : Int :=
  match ff.meta with | some m => m.mode | none => 0

/-- gid as addFile reads it (0 when no metadata). -/
def metaGidOf (ff : FsFile) : Int :=
  match ff.meta with | some m => m.gid | none => 0

/-- uid as addFile reads it (0 when no metadata). -/
def metaUidOf (ff : FsFile) : Int :=
  match ff.meta with | some m => m.uid | none => 0

/-- The full text of the addFile INSERT statement exactly as snprintf
formats it (db_sqlite.cpp:575-590): signed conversions for the int64 and
int arguments, unsigned 64-bit conversions for meta_addr (PRIuINUM) and
size (PRIuOFF, printing the signed TSK_OFF_T value reinterpreted
unsigned), and the escaped name buffer embedded between quote
delimiters.  snprintf(foo, 1024, ...) truncates this text to 1023 bytes;
a truncated statement loses at least its closing parenthesis, is
malformed SQL, and makes sqlite3_exec fail. -/
def fsFileInsertStmt (ff : FsFile) (fsAttr : Option FsAttr) (fn : FsName)
    (fsObjId objId : Int) (nameBuf : List Char) : List Char :=
  tskFilesInsertPrefix
    ++ intDec fsObjId ++ ',' :: intDec objId
    ++ ',' :: intDec (dbFilesTypeVal .DB_FILES_TYPE_FS)
    ++ ',' :: intDec (attrTypeOf fsAttr) ++ ',' :: intDec (attrIdOf fsAttr)
    ++ ',' :: quoteChar :: nameBuf ++ quoteChar :: ',' :: natDec fn.meta_addr
    ++ ',' :: intDec fn.ntype ++ ',' :: intDec (metaTypeOf ff)
    ++ ',' :: intDec fn.flags ++ ',' :: intDec (metaFlagsOf ff)
    ++ ',' :: natDec (uint64OfInt64 (metaSizeOf ff))
    ++ ',' :: intDec (metaCrtimeOf ff) ++ ',' :: intDec (metaCtimeOf ff)
    ++ ',' :: intDec (metaAtimeOf ff) ++ ',' :: intDec (metaMtimeOf ff)
    ++ ',' :: intDec (metaModeOf ff) ++ ',' :: intDec (metaGidOf ff)
    ++ ',' :: intDec (metaUidOf ff) ++ [')']

/-- The full text of the addCarvedFileInfo INSERT statement exactly as
snprintf formats it (db_sqlite.cpp:720-734): fsObjId with a signed int
conversion, objId signed int64, literal NULL for the absent columns,
size with the unsigned 64-bit PRIuOFF conversion, and the escaped name
between quote delimiters.  The same 1024-byte snprintf buffer applies. -/
def carvedInsertStmt (fsObjId objId : Int) (nameBuf : List Char)
    (size : Nat) : List Char :=
  tskFilesInsertPrefix
    ++ intDec fsObjId ++ ',' :: intDec objId
    ++ ',' :: intDec (dbFilesTypeVal .DB_FILES_TYPE_CARVED)
    ++ ',' :: nullText ++ ',' :: nullText
    ++ ',' :: quoteChar :: nameBuf ++ quoteChar :: ',' :: nullText
    ++ ',' :: intDec TSK_FS_NAME_TYPE_REG ++ ',' :: intDec TSK_FS_META_TYPE_REG
    ++ ',' :: intDec TSK_FS_NAME_FLAG_UNALLOC
    ++ ',' :: intDec TSK_FS_NAME_FLAG_UNALLOC
    ++ ',' :: natDec size
    ++ ',' :: nullText ++ ',' :: nullText ++ ',' :: nullText ++ ',' :: nullText
    ++ ',' :: nullText ++ ',' :: nullText ++ ',' :: nullText ++ [')']

/-- The tsk_files row written by TskDbSqlite::addFile for a named record:
source kind DB_FILES_TYPE_FS, attribute type and id (0 when no attribute
is given), the built display name, the native metadata address, the
directory-entry type and flags from the name record, and the metadata
fields (0 defaults when the record has no metadata). -/
def fsFileRow (ff : FsFile) (fsAttr : Option FsAttr) (fn : FsName)
    (fsObjId objId : Int) : TskFileRow :=
  { fs_obj_id := fsObjId
    obj_id := objId
    ftype := .DB_FILES_TYPE_FS
    attr_type := some (match fsAttr with | some a => a.atype | none => 0)
    attr_id := some (match fsAttr with | some a => a.id | none => 0)
    name := buildName fn.nm (attrNameOf fsAttr) (attrNLen fsAttr)
    meta_addr := some fn.meta_addr
    dir_type := fn.ntype
    meta_type := match ff.meta with | some m => m.mtype | none => 0
    dir_flags := fn.flags
    meta_flags := match ff.meta with | some m => m.flags | none => 0
    size := some (match ff.meta with | some m => m.size | none => 0)
    crtime := some (match ff.meta with | some m => m.crtime | none => 0)
    ctime := some (match ff.meta with | some m => m.ctime | none => 0)
    atime := some (match ff.meta with | some m => m.atime | none => 0)
    mtime := some (match ff.meta with | some m => m.mtime | none => 0)
    mode := some (match ff.meta with | some m => m.mode | none => 0)
    uid := some (match ff.meta with | some m => m.uid | none => 0)
    gid := some (match ff.meta with | some m => m.gid | none => 0) }

/-- Outcome of a file-ingestion call: skipped models the C return 0 with
no object allocated (unnamed record), inserted models return 0 with the
fresh object id written to the output parameter, failed models return 1,
and undef models the case where the escape loops filled every one of the
nlen + 1 allocated name-buffer bytes so no NUL terminator remains and
the snprintf %s embed reads past the allocation — undefined behavior;
the model records no effect beyond the already-performed object
allocation. -/
inductive FileIngestOutcome where
  | skipped
  | inserted (objId : Int)
  | failed
  | undef
  deriving DecidableEq, Repr

/-- TskDbSqlite::addFile: skip unnamed records; otherwise build the
escaped name buffer, allocate an object under parObjId, and insert the
tsk_files row.  Two input-determined failure paths of the source are
modelled: a completely filled name buffer (written length =
nlen + 1 = 2 * (len + attr_nlen) + 1) has no NUL terminator inside the
allocation, so the snprintf %s embed is undefined behavior (undef); and
a statement text longer than the 1023 bytes snprintf keeps is truncated
to malformed SQL, sqlite3_exec fails, and the call returns 1 with the
tsk_objects row already written but no tsk_files row (failed). -/
def addFile (st : DbState) (ff : FsFile) (fsAttr : Option FsAttr)
    (fsObjId parObjId : Int) : DbState × FileIngestOutcome :=
  match ff.name with
  | none => (st, .skipped)
  | some fn =>
    match addObject .DB_OBJECT_TYPE_FILE parObjId st with
    | (st1, some objId) =>
      if (buildName fn.nm (attrNameOf fsAttr) (attrNLen fsAttr)).length =
          2 * (fn.nm.length + attrNLen fsAttr) + 1 then
        (st1, .undef)
      else if (fsFileInsertStmt ff fsAttr fn fsObjId objId
          (buildName fn.nm (attrNameOf fsAttr) (attrNLen fsAttr))).length ≤ 1023 then
        ({ st1 with files := st1.files ++ [fsFileRow ff fsAttr fn fsObjId objId] },
          .inserted objId)
      else (st1, .failed)
    | (st1, none) => (st1, .failed)

/-- The prepared statement of TskDbSqlite::setup, SELECT obj_id FROM
tsk_files WHERE meta_addr IS ? AND fs_obj_id IS ?, stepped once: the
obj_id of the first matching row in insertion order, none when no row
matches. -/
def selectFileIdByMetaAddr (files : List TskFileRow) (parAddr : Nat) (fsObjId : Int) :
    Option Int :=
  (files.find? (fun r => r.meta_addr == some parAddr && r.fs_obj_id == fsObjId)).map
    (fun r => r.obj_id)

/-- TskDbSqlite::addFsFile: skip unnamed records; when the metadata
address of the record equals root_inum of the owning filesystem the
parent is fsObjId itself, otherwise the parent is resolved through the
prepared lookup keyed by the parent metadata address and fsObjId, and a
lookup that yields no row makes the call fail (C return 1) with nothing
written. -/
def addFsFile (st : DbState) (ff : FsFile) (fsAttr : Option FsAttr) (fsObjId : Int) :
    DbState × FileIngestOutcome :=
  match ff.name with
  | none => (st, .skipped)
  | some fn =>
    if ff.root_inum = fn.meta_addr then
      addFile st ff fsAttr fsObjId fsObjId
    else
      match selectFileIdByMetaAddr st.files fn.par_addr fsObjId with
      | none => ({ st with lookups := st.lookups + 1 }, .failed)
      | some parObjId =>
        addFile { st with lookups := st.lookups + 1 } ff fsAttr fsObjId parObjId

/-- The tsk_files row written by TskDbSqlite::addCarvedFileInfo: source
kind DB_FILES_TYPE_CARVED, NULL attribute type and id, NULL metadata
address, regular-file directory and metadata types, unallocated flags in
both flag columns, the given size, and NULL timestamps, mode, uid, gid. -/
def carvedFileRow (fsObjId objId : Int) (nm : List Char) (size : Nat) : TskFileRow :=
  { fs_obj_id := fsObjId
    obj_id := objId
    ftype := .DB_FILES_TYPE_CARVED
    attr_type := none
    attr_id := none
    name := escWhile nm 0 (2 * nm.length)
    meta_addr := none
    dir_type := TSK_FS_NAME_TYPE_REG
    meta_type := TSK_FS_META_TYPE_REG
    dir_flags := TSK_FS_NAME_FLAG_UNALLOC
    meta_flags := TSK_FS_NAME_FLAG_UNALLOC
    size := some (size : Int)
    crtime := none
    ctime := none
    atime := none
    mtime := none
    mode := none
    uid := none
    gid := none }

/-- TskDbSqlite::addCarvedFileInfo: escape the name, allocate an object
whose parent is fsObjId directly, and insert the carved tsk_files row.
The escaped carved name can never fill its whole nlen + 1 buffer (at
most 2 * len of the 2 * len + 1 bytes are written), so the only
input-determined failure is the 1024-byte snprintf statement buffer: a
longer statement is truncated to malformed SQL, sqlite3_exec fails and
the call returns 1 with the tsk_objects row already written but no
tsk_files row (none). -/
def addCarvedFileInfo (st : DbState) (fsObjId : Int) (fileName : List Char)
    (size : Nat) : DbState × Option Int :=
  match addObject .DB_OBJECT_TYPE_FILE fsObjId st with
  | (st1, some objId) =>
    if (carvedInsertStmt fsObjId objId (escWhile fileName 0 (2 * fileName.length))
        size).length ≤ 1023 then
      ({ st1 with files := st1.files ++ [carvedFileRow fsObjId objId fileName size] },
        some objId)
    else (st1, none)
  | (st1, none) => (st1, none)

/-- TskDbSqlite::addFsBlockInfo: insert one tsk_file_layout row.  The
byte_start argument (uint64_t) is printed with a signed conversion and
the file object id (int64_t) with an unsigned one; fs_id and byte_len
are printed with matching conversions. -/
def addFsBlockInfo (st : DbState) (a_fsObjId a_fileObjId : Int)
    (a_byteStart a_byteLen : Nat) : DbState :=
  { st with layout := st.layout ++
      [⟨a_fsObjId, int64OfUInt64 a_byteStart, a_byteLen, uint64OfInt64 a_fileObjId⟩] }

/-- Reading the recorded runs of one file back from tsk_file_layout:
select the rows of the given filesystem and file object ids in insertion
order and decode byte_start back to the unsigned value. -/
def getRuns (st : DbState) (fsObjId fileObjId : Int) : List (Nat × Nat) :=
  (st.layout.filter
      (fun r => r.fs_id == fsObjId && r.obj_id == uint64OfInt64 fileObjId)).map
    (fun r => (uint64OfInt64 r.byte_start, r.byte_len))

/-- The prepared-statement state read by TskDbSqlite::cleanup: whether
m_selectFileIdByMetaAddr is currently prepared (non-NULL). -/
structure SessionStmts where
  selectStmtPrepared : Bool
  deriving DecidableEq, Repr

/-- TskDbSqlite::cleanup: finalize the prepared statement when it is
non-NULL, then return 1 unconditionally. -/
def cleanup (s : SessionStmts) : SessionStmts × Int :=
  if s.selectStmtPrepared then ({ selectStmtPrepared := false }, 1)
  else (s, 1)

theorem foldl_objMax_init_le (l : List TskObject) : ∀ a : Int, a ≤ l.foldl objMax a := by
  induction l with
  | nil => intro a; exact le_refl a
  | cons o l ih =>
    intro a
    calc a ≤ max a o.obj_id := le_max_left a o.obj_id
    _ ≤ l.foldl objMax (max a o.obj_id) := ih (max a o.obj_id)

theorem mem_le_foldl_objMax (l : List TskObject) :
    ∀ (a : Int) (o : TskObject), o ∈ l → o.obj_id ≤ l.foldl objMax a := by
  induction l with
  | nil => intro a o h; cases h
  | cons x l ih =>
    intro a o h
    rcases List.mem_cons.mp h with h1 | h2
    · subst h1
      calc o.obj_id ≤ max a o.obj_id := le_max_right a o.obj_id
      _ ≤ l.foldl objMax (max a o.obj_id) := foldl_objMax_init_le l (max a o.obj_id)
    · exact ih (objMax a x) o h2

theorem mem_le_maxObjId (l : List TskObject) (o : TskObject) (h : o ∈ l) :
    o.obj_id ≤ maxObjId l :=
  mem_le_foldl_objMax l 0 o h

theorem maxObjId_append_single (l : List TskObject) (o : TskObject) :
    maxObjId (l ++ [o]) = max (maxObjId l) o.obj_id := by
  simp [maxObjId, List.foldl_append, objMax]

theorem insertTskObject_eq (st : DbState) (par : Option Int) (t : DB_OBJECT_TYPES) :
    insertTskObject st par t =
      ({ st with objects := st.objects ++ [⟨maxObjId st.objects + 1, par, t⟩] },
        some (maxObjId st.objects + 1)) := by
  have hok : objInsertOk st.objects ⟨maxObjId st.objects + 1, par, t⟩ = true := by
    simp only [objInsertOk, Bool.not_eq_true', List.any_eq_false, beq_iff_eq]
    intro x hx
    have hle := mem_le_maxObjId st.objects x hx
    omega
  simp [insertTskObject, hok]

theorem maxObjId_append_fresh (st : DbState) (p : Option Int) (t : DB_OBJECT_TYPES) :
    maxObjId (st.objects ++ [⟨maxObjId st.objects + 1, p, t⟩]) =
      maxObjId st.objects + 1 := by
  rw [maxObjId_append_single]
  show max (maxObjId st.objects) (maxObjId st.objects + 1) = maxObjId st.objects + 1
  omega

theorem addFile_some_eq (st : DbState) (ff : FsFile) (fsAttr : Option FsAttr)
    (fsObjId parObjId : Int) (fn : FsName) (h : ff.name = some fn) :
    addFile st ff fsAttr fsObjId parObjId =
      (if (buildName fn.nm (attrNameOf fsAttr) (attrNLen fsAttr)).length =
          2 * (fn.nm.length + attrNLen fsAttr) + 1 then
        ({ st with objects := st.objects ++
            [⟨maxObjId st.objects + 1, some parObjId, .DB_OBJECT_TYPE_FILE⟩] },
          .undef)
      else if (fsFileInsertStmt ff fsAttr fn fsObjId (maxObjId st.objects + 1)
          (buildName fn.nm (attrNameOf fsAttr) (attrNLen fsAttr))).length ≤ 1023 then
        ({ st with
            objects := st.objects ++
              [⟨maxObjId st.objects + 1, some parObjId, .DB_OBJECT_TYPE_FILE⟩],
            files := st.files ++
              [fsFileRow ff fsAttr fn fsObjId (maxObjId st.objects + 1)] },
          .inserted (maxObjId st.objects + 1))
      else
        ({ st with objects := st.objects ++
            [⟨maxObjId st.objects + 1, some parObjId, .DB_OBJECT_TYPE_FILE⟩] },
          .failed)) := by
  unfold addFile
  rw [h]
  rw [addObject, insertTskObject_eq]

theorem addFile_some_ok (st : DbState) (ff : FsFile) (fsAttr : Option FsAttr)
    (fsObjId parObjId : Int) (fn : FsName) (h : ff.name = some fn)
    (hsat : ¬(buildName fn.nm (attrNameOf fsAttr) (attrNLen fsAttr)).length =
      2 * (fn.nm.length + attrNLen fsAttr) + 1)
    (hfit : (fsFileInsertStmt ff fsAttr fn fsObjId (maxObjId st.objects + 1)
        (buildName fn.nm (attrNameOf fsAttr) (attrNLen fsAttr))).length ≤ 1023) :
    addFile st ff fsAttr fsObjId parObjId =
      ({ st with
          objects := st.objects ++
            [⟨maxObjId st.objects + 1, some parObjId, .DB_OBJECT_TYPE_FILE⟩],
          files := st.files ++
            [fsFileRow ff fsAttr fn fsObjId (maxObjId st.objects + 1)] },
        .inserted (maxObjId st.objects + 1)) := by
  rw [addFile_some_eq st ff fsAttr fsObjId parObjId fn h, if_neg hsat, if_pos hfit]

theorem addFile_some_objects (st : DbState) (ff : FsFile) (fsAttr : Option FsAttr)
    (fsObjId parObjId : Int) (fn : FsName) (h : ff.name = some fn) :
    (addFile st ff fsAttr fsObjId parObjId).1.objects =
      st.objects ++ [⟨maxObjId st.objects + 1, some parObjId, .DB_OBJECT_TYPE_FILE⟩] := by
  rw [addFile_some_eq st ff fsAttr fsObjId parObjId fn h]
  split
  · rfl
  · split <;> rfl

theorem addFile_some_lookups (st : DbState) (ff : FsFile) (fsAttr : Option FsAttr)
    (fsObjId parObjId : Int) (fn : FsName) (h : ff.name = some fn) :
    (addFile st ff fsAttr fsObjId parObjId).1.lookups = st.lookups := by
  rw [addFile_some_eq st ff fsAttr fsObjId parObjId fn h]
  split
  · rfl
  · split <;> rfl

theorem addFile_some_ne_skipped (st : DbState) (ff : FsFile) (fsAttr : Option FsAttr)
    (fsObjId parObjId : Int) (fn : FsName) (h : ff.name = some fn) :
    (addFile st ff fsAttr fsObjId parObjId).2 ≠ .skipped := by
  rw [addFile_some_eq st ff fsAttr fsObjId parObjId fn h]
  split
  · simp
  · split <;> simp

theorem addFile_inserted_eq (st : DbState) (ff : FsFile) (fsAttr : Option FsAttr)
    (fsObjId parObjId : Int) (fn : FsName) (i : Int) (h : ff.name = some fn)
    (hi : (addFile st ff fsAttr fsObjId parObjId).2 = .inserted i) :
    i = maxObjId st.objects + 1 ∧
    (addFile st ff fsAttr fsObjId parObjId).1.files =
      st.files ++ [fsFileRow ff fsAttr fn fsObjId (maxObjId st.objects + 1)] := by
  rw [addFile_some_eq st ff fsAttr fsObjId parObjId fn h] at hi ⊢
  revert hi
  split
  · intro hi
    exact absurd hi (by simp)
  · split
    · intro hi
      simp only [FileIngestOutcome.inserted.injEq] at hi
      exact ⟨hi.symm, rfl⟩
    · intro hi
      exact absurd hi (by simp)


theorem addFsFile_none (st : DbState) (ff : FsFile) (a : Option FsAttr) (f : Int)
    (h : ff.name = none) : addFsFile st ff a f = (st, .skipped) := by
  unfold addFsFile
  rw [h]

theorem addFsFile_root (st : DbState) (ff : FsFile) (a : Option FsAttr) (f : Int)
    (fn : FsName) (h : ff.name = some fn) (hr : ff.root_inum = fn.meta_addr) :
    addFsFile st ff a f = addFile st ff a f f := by
  unfold addFsFile
  rw [h]
  simp [hr]

theorem addFsFile_lookup_none (st : DbState) (ff : FsFile) (a : Option FsAttr)
    (f : Int) (fn : FsName) (h : ff.name = some fn)
    (hr : ¬ff.root_inum = fn.meta_addr)
    (hs : selectFileIdByMetaAddr st.files fn.par_addr f = none) :
    addFsFile st ff a f = ({ st with lookups := st.lookups + 1 }, .failed) := by
  unfold addFsFile
  rw [h]
  simp [hr, hs]

theorem addFsFile_lookup_some (st : DbState) (ff : FsFile) (a : Option FsAttr)
    (f : Int) (fn : FsName) (p : Int) (h : ff.name = some fn)
    (hr : ¬ff.root_inum = fn.meta_addr)
    (hs : selectFileIdByMetaAddr st.files fn.par_addr f = some p) :
    addFsFile st ff a f = addFile { st with lookups := st.lookups + 1 } ff a f p := by
  unfold addFsFile
  rw [h]
  simp [hr, hs]

theorem addCarvedFileInfo_eq (st : DbState) (fsObjId : Int) (nm : List Char)
    (size : Nat) :
    addCarvedFileInfo st fsObjId nm size =
      (if (carvedInsertStmt fsObjId (maxObjId st.objects + 1)
          (escWhile nm 0 (2 * nm.length)) size).length ≤ 1023 then
        ({ st with
            objects := st.objects ++
              [⟨maxObjId st.objects + 1, some fsObjId, .DB_OBJECT_TYPE_FILE⟩],
            files := st.files ++
              [carvedFileRow fsObjId (maxObjId st.objects + 1) nm size] },
          some (maxObjId st.objects + 1))
      else
        ({ st with objects := st.objects ++
            [⟨maxObjId st.objects + 1, some fsObjId, .DB_OBJECT_TYPE_FILE⟩] },
          none)) := by
  unfold addCarvedFileInfo
  rw [addObject, insertTskObject_eq]

theorem addCarvedFileInfo_ok (st : DbState) (fsObjId : Int) (nm : List Char)
    (size : Nat)
    (hfit : (carvedInsertStmt fsObjId (maxObjId st.objects + 1)
        (escWhile nm 0 (2 * nm.length)) size).length ≤ 1023) :
    addCarvedFileInfo st fsObjId nm size =
      ({ st with
          objects := st.objects ++
            [⟨maxObjId st.objects + 1, some fsObjId, .DB_OBJECT_TYPE_FILE⟩],
          files := st.files ++
            [carvedFileRow fsObjId (maxObjId st.objects + 1) nm size] },
        some (maxObjId st.objects + 1)) := by
  rw [addCarvedFileInfo_eq st fsObjId nm size, if_pos hfit]

theorem addFsFile_objects_cases (st : DbState) (ff : FsFile) (a : Option FsAttr)
    (f : Int) :
    (maxObjId (addFsFile st ff a f).1.objects = maxObjId st.objects ∨
      maxObjId (addFsFile st ff a f).1.objects = maxObjId st.objects + 1) ∧
    ∀ i, (addFsFile st ff a f).2 = FileIngestOutcome.inserted i →
      i = maxObjId st.objects + 1 ∧
      maxObjId (addFsFile st ff a f).1.objects = maxObjId st.objects + 1 := by
  cases hn : ff.name with
  | none =>
    rw [addFsFile_none st ff a f hn]
    refine ⟨Or.inl rfl, ?_⟩
    intro i hi
    exact absurd hi (by simp)
  | some fn =>
    by_cases hr : ff.root_inum = fn.meta_addr
    · rw [addFsFile_root st ff a f fn hn hr]
      have hobj := addFile_some_objects st ff a f f fn hn
      have hmax : maxObjId (addFile st ff a f f).1.objects =
          maxObjId st.objects + 1 := by
        rw [hobj]
        exact maxObjId_append_fresh st (some f) .DB_OBJECT_TYPE_FILE
      refine ⟨Or.inr hmax, ?_⟩
      intro i hi
      obtain ⟨hi1, _⟩ := addFile_inserted_eq st ff a f f fn i hn hi
      exact ⟨hi1, hmax⟩
    · cases hs : selectFileIdByMetaAddr st.files fn.par_addr f with
      | none =>
        rw [addFsFile_lookup_none st ff a f fn hn hr hs]
        refine ⟨Or.inl rfl, ?_⟩
        intro i hi
        exact absurd hi (by simp)
      | some p =>
        rw [addFsFile_lookup_some st ff a f fn p hn hr hs]
        have hobj := addFile_some_objects { st with lookups := st.lookups + 1 }
          ff a f p fn hn
        have hmax : maxObjId (addFile { st with lookups := st.lookups + 1 }
            ff a f p).1.objects = maxObjId st.objects + 1 := by
          rw [hobj]
          exact maxObjId_append_fresh st (some p) .DB_OBJECT_TYPE_FILE
        refine ⟨Or.inr hmax, ?_⟩
        intro i hi
        obtain ⟨hi1, _⟩ := addFile_inserted_eq { st with lookups := st.lookups + 1 }
          ff a f p fn i hn hi
        exact ⟨hi1, hmax⟩

/-- One allocating call of the session, covering every entity kind the
source can allocate. -/
inductive AllocCall where
  | img (ty ssize : Int)
  | vs (v : VsData) (par : Int)
  | vol (p : VsPartData) (par : Int)
  | fsys (f : FsData) (par : Int)
  | file (ff : FsFile) (fsAttr : Option FsAttr) (fsObjId : Int)
  | carved (fsObjId : Int) (nm : List Char) (size : Nat)

/-- Dispatch one allocating call and report the allocated object id, if
any (skipped or failed file ingestion allocates none). -/
def allocStep (st : DbState) : AllocCall → DbState × Option Int
  | .img ty s => addImageInfo ty s st
  | .vs v par => addVsInfo v par st
  | .vol p par => addVolumeInfo p par st
  | .fsys f par => addFsInfo f par st
  | .file ff a f =>
    ((addFsFile st ff a f).1,
      match (addFsFile st ff a f).2 with
      | .inserted i => some i
      | _ => none)
  | .carved f nm s => addCarvedFileInfo st f nm s

/-- Run a sequence of allocating calls, collecting the allocated ids in
order. -/
def runAllocs : DbState → List AllocCall → DbState × List Int
  | st, [] => (st, [])
  | st, c :: rest =>
    ((runAllocs (allocStep st c).1 rest).1,
      (allocStep st c).2.toList ++ (runAllocs (allocStep st c).1 rest).2)

theorem allocStep_ids (st : DbState) (c : AllocCall) :
    maxObjId st.objects ≤ maxObjId (allocStep st c).1.objects ∧
    ∀ i, (allocStep st c).2 = some i →
      maxObjId st.objects < i ∧ i ≤ maxObjId (allocStep st c).1.objects := by
  cases c with
  | img ty s =>
    simp only [allocStep, addImageInfo, insertTskObject_eq, maxObjId_append_fresh]
    refine ⟨by omega, ?_⟩
    intro i hi
    cases hi
    omega
  | vs v par =>
    simp only [allocStep, addVsInfo, addObject, insertTskObject_eq, maxObjId_append_fresh]
    refine ⟨by omega, ?_⟩
    intro i hi
    cases hi
    omega
  | vol p par =>
    simp only [allocStep, addVolumeInfo, addObject, insertTskObject_eq,
      maxObjId_append_fresh]
    refine ⟨by omega, ?_⟩
    intro i hi
    cases hi
    omega
  | fsys f par =>
    simp only [allocStep, addFsInfo, addObject, insertTskObject_eq, maxObjId_append_fresh]
    refine ⟨by omega, ?_⟩
    intro i hi
    cases hi
    omega
  | carved f nm s =>
    simp only [allocStep, addCarvedFileInfo_eq]
    split
    · simp only [maxObjId_append_fresh]
      refine ⟨by omega, ?_⟩
      intro i hi
      cases hi
      omega
    · simp only [maxObjId_append_fresh]
      refine ⟨by omega, ?_⟩
      intro i hi
      cases hi
  | file ff a f =>
    obtain ⟨hcases, hins⟩ := addFsFile_objects_cases st ff a f
    simp only [allocStep]
    constructor
    · rcases hcases with h | h <;> omega
    · intro i hi
      revert hi
      cases hcase : (addFsFile st ff a f).2 with
      | inserted j =>
        intro hi
        simp only [Option.some.injEq] at hi
        subst hi
        obtain ⟨h1, h2⟩ := hins j hcase
        constructor
        · omega
        · omega
      | skipped => intro hi; exact absurd hi (by simp)
      | failed => intro hi; exact absurd hi (by simp)
      | undef => intro hi; exact absurd hi (by simp)

theorem runAllocs_spec (calls : List AllocCall) : ∀ st : DbState,
    maxObjId st.objects ≤ maxObjId (runAllocs st calls).1.objects ∧
    (∀ i ∈ (runAllocs st calls).2,
      maxObjId st.objects < i ∧ i ≤ maxObjId (runAllocs st calls).1.objects) ∧
    List.Pairwise (fun a b => a < b) (runAllocs st calls).2 := by
  induction calls with
  | nil =>
    intro st
    refine ⟨le_refl _, ?_, List.Pairwise.nil⟩
    intro i hi
    cases hi
  | cons c rest ih =>
    intro st
    obtain ⟨hstep_le, hstep_some⟩ := allocStep_ids st c
    obtain ⟨hle, hmem, hpw⟩ := ih (allocStep st c).1
    refine ⟨le_trans hstep_le hle, ?_, ?_⟩
    · intro i hi
      simp only [runAllocs, List.mem_append] at hi
      rcases hi with hi | hi
      · cases ho : (allocStep st c).2 with
        | none => rw [ho] at hi; cases hi
        | some j =>
          rw [ho] at hi
          simp only [Option.toList_some, List.mem_singleton] at hi
          subst hi
          obtain ⟨h1, h2⟩ := hstep_some i ho
          exact ⟨h1, le_trans h2 hle⟩
      · obtain ⟨h1, h2⟩ := hmem i hi
        exact ⟨lt_of_le_of_lt hstep_le h1, h2⟩
    · show List.Pairwise (fun a b => a < b)
        ((allocStep st c).2.toList ++ (runAllocs (allocStep st c).1 rest).2)
      cases ho : (allocStep st c).2 with
      | none => simpa using hpw
      | some j =>
        simp only [Option.toList_some, List.singleton_append]
        refine List.Pairwise.cons ?_ hpw
        intro b hb
        obtain ⟨hj1, hj2⟩ := hstep_some j ho
        obtain ⟨hb1, _⟩ := hmem b hb
        omega

theorem sqlUnescape_cons_ne (c : Char) (l : List Char) (hc : ¬c = quoteChar) :
    sqlUnescape (c :: l) = c :: sqlUnescape l := by
  rw [sqlUnescape.eq_def]
  simp [hc]

theorem uint64_int64_roundtrip (n : Nat) (h : n < 2 ^ 64) :
    uint64OfInt64 (int64OfUInt64 n) = n := by
  unfold uint64OfInt64 int64OfUInt64
  split <;> omega

/-- C1: for a named native record whose metadata address differs from the
root metadata address of the owning filesystem, addFsFile resolves the
parent object id through the prepared point query keyed by the parent
metadata address of the record and the filesystem object id against the
previously ingested tsk_files rows; when that query matches zero rows
the call fails (C return 1 — the OrphanReference error) with the
database contents unchanged: no skip and no fabricated parent. -/
theorem c1_orphan_lookup (st : DbState) (ff : FsFile) (fsAttr : Option FsAttr)
    (fsObjId : Int) (fn : FsName) (hname : ff.name = some fn)
    (hroot : ¬ff.root_inum = fn.meta_addr) :
    (selectFileIdByMetaAddr st.files fn.par_addr fsObjId = none →
      addFsFile st ff fsAttr fsObjId =
        ({ st with lookups := st.lookups + 1 }, .failed)) ∧
    (∀ pid, selectFileIdByMetaAddr st.files fn.par_addr fsObjId = some pid →
      addFsFile st ff fsAttr fsObjId =
        addFile { st with lookups := st.lookups + 1 } ff fsAttr fsObjId pid) := by
  constructor
  · intro hs
    exact addFsFile_lookup_none st ff fsAttr fsObjId fn hname hroot hs
  · intro pid hs
    exact addFsFile_lookup_some st ff fsAttr fsObjId fn pid hname hroot hs

theorem c1_orphan_lookup_witness :
    addFsFile initState
      { name := some { nm := ['a'], meta_addr := 5, par_addr := 7, ntype := 3, flags := 1 },
        meta := none, root_inum := 2 }
      none 4 = ({ initState with lookups := 1 }, .failed) := by
  have h := c1_orphan_lookup initState
    { name := some { nm := ['a'], meta_addr := 5, par_addr := 7, ntype := 3, flags := 1 },
      meta := none, root_inum := 2 }
    none 4 { nm := ['a'], meta_addr := 5, par_addr := 7, ntype := 3, flags := 1 }
    rfl (by decide)
  exact h.1 rfl


theorem buildName_none_not_saturated (fname : List Char) :
    ¬(buildName fname (attrNameOf none) (attrNLen none)).length =
      2 * (fname.length + attrNLen none) + 1 := by
  have hle := sqlEscape_length_le fname
  rw [show attrNLen none = 0 from rfl,
    buildName_eq fname (attrNameOf none) 0 (by omega),
    if_neg (show ¬(0 : Nat) < 0 from by omega), List.append_nil]
  omega

set_option maxRecDepth 40000

/-- C2 counterexample: a named record whose metadata address equals the
root address, with a 900-byte name — the escaped INSERT statement
exceeds the 1023 bytes snprintf keeps, the truncated statement is
malformed, the exec fails, and no File row results, so the claim that
such a call yields a File whose parent is the filesystem object id is
false at this input. -/
theorem c2_counterexample :
    (addFsFile initState
      { name :=
          some { nm := List.replicate 900 'a', meta_addr := 2, par_addr := 7,
                 ntype := 3, flags := 1 },
        meta := none, root_inum := 2 }
      none 4).2 = .failed ∧
    (addFsFile initState
      { name :=
          some { nm := List.replicate 900 'a', meta_addr := 2, par_addr := 7,
                 ntype := 3, flags := 1 },
        meta := none, root_inum := 2 }
      none 4).1.files = [] := by
  decide

/-- C2 amended: for a named native record whose metadata address equals
the root metadata address of the owning filesystem, addFsFile hands the
filesystem object id itself to addFile as the parent and the prepared
lookup statement is never stepped; when the call succeeds — the escaped
name buffer keeps its NUL terminator and the formatted statement fits
the 1024-byte snprintf buffer — the inserted object carries parent
fsObjId; a call whose statement overflows that buffer fails and stores
no File row (still with zero lookups). -/
theorem c2_root_shortcut (st : DbState) (ff : FsFile) (fsAttr : Option FsAttr)
    (fsObjId : Int) (fn : FsName) (hname : ff.name = some fn)
    (hroot : ff.root_inum = fn.meta_addr) :
    addFsFile st ff fsAttr fsObjId = addFile st ff fsAttr fsObjId fsObjId ∧
    (addFsFile st ff fsAttr fsObjId).1.lookups = st.lookups ∧
    (¬(buildName fn.nm (attrNameOf fsAttr) (attrNLen fsAttr)).length =
        2 * (fn.nm.length + attrNLen fsAttr) + 1 →
      (fsFileInsertStmt ff fsAttr fn fsObjId (maxObjId st.objects + 1)
          (buildName fn.nm (attrNameOf fsAttr) (attrNLen fsAttr))).length ≤ 1023 →
      (addFsFile st ff fsAttr fsObjId).2 = .inserted (maxObjId st.objects + 1) ∧
      (addFsFile st ff fsAttr fsObjId).1.objects =
        st.objects ++
          [⟨maxObjId st.objects + 1, some fsObjId, .DB_OBJECT_TYPE_FILE⟩]) := by
  have he := addFsFile_root st ff fsAttr fsObjId fn hname hroot
  refine ⟨he, ?_, ?_⟩
  · rw [he]
    exact addFile_some_lookups st ff fsAttr fsObjId fsObjId fn hname
  · intro hsat hfit
    rw [he, addFile_some_ok st ff fsAttr fsObjId fsObjId fn hname hsat hfit]
    exact ⟨rfl, rfl⟩

theorem c2_root_shortcut_witness :
    (addFsFile initState
      { name := some { nm := ['a'], meta_addr := 2, par_addr := 7, ntype := 3, flags := 1 },
        meta := none, root_inum := 2 }
      none 4).1.lookups = 0 ∧
    (addFsFile initState
      { name := some { nm := ['a'], meta_addr := 2, par_addr := 7, ntype := 3, flags := 1 },
        meta := none, root_inum := 2 }
      none 4).2 = .inserted 1 := by
  have h := c2_root_shortcut initState
    { name := some { nm := ['a'], meta_addr := 2, par_addr := 7, ntype := 3, flags := 1 },
      meta := none, root_inum := 2 }
    none 4 { nm := ['a'], meta_addr := 2, par_addr := 7, ntype := 3, flags := 1 }
    rfl rfl
  have h3 := h.2.2 (by decide) (by decide)
  exact ⟨h.2.1.trans rfl, h3.1.trans (by decide)⟩

/-- C3 counterexample: in the fresh session no object with id 999 was
ever allocated, yet allocating a File object with parent 999 succeeds
and records the object — the tsk_objects table declares no constraint on
par_obj_id, so no ConstraintViolation is possible, contradicting the
claim that such an allocation fails and records nothing. -/
theorem c3_counterexample :
    (∀ o ∈ initState.objects, o.obj_id ≠ 999) ∧
    (addObject .DB_OBJECT_TYPE_FILE 999 initState).2 = some 1 ∧
    (addObject .DB_OBJECT_TYPE_FILE 999 initState).1.objects =
      [⟨1, some 999, .DB_OBJECT_TYPE_FILE⟩] := by
  decide

/-- C3 amended: for every allocation call with a kind other than Image
and a parent object id that was never previously allocated in the
session, the allocation nevertheless succeeds — the object is recorded
with the given (dangling) parent id and a fresh object id — because the
registry performs no parent-existence check; no ConstraintViolation
occurs. -/
theorem c3_no_parent_check (st : DbState) (t : DB_OBJECT_TYPES) (par : Int)
    (ht : t ≠ .DB_OBJECT_TYPE_IMG) (hpar : ∀ o ∈ st.objects, o.obj_id ≠ par) :
    (addObject t par st).2 = some (maxObjId st.objects + 1) ∧
    (addObject t par st).1.objects =
      st.objects ++ [⟨maxObjId st.objects + 1, some par, t⟩] := by
  rw [addObject, insertTskObject_eq]
  exact ⟨rfl, rfl⟩

theorem c3_no_parent_check_witness :
    (addObject .DB_OBJECT_TYPE_VS 999 initState).2 = some 1 := by
  have h := c3_no_parent_check initState .DB_OBJECT_TYPE_VS 999 (by decide) (by decide)
  exact h.1.trans (by decide)

/-- C4 counterexample: a file name consisting of one quote character with
an attribute stream named by one quote character — the escape loops fill
all nlen + 1 = 5 allocated buffer bytes, leaving no NUL terminator, so
the snprintf %s embed reads past the allocation (undefined behavior) and
nothing is stored: the claimed quote-doubling round trip of the stored
name fails at this input because no sanitized name is stored at all. -/
theorem c4_counterexample :
    (addFile initState
      { name :=
          some { nm := [quoteChar], meta_addr := 9, par_addr := 2,
                 ntype := 5, flags := 1 },
        meta := none, root_inum := 3 }
      (some { atype := 1, id := 0, nm := some [quoteChar] }) 4 6).2 = .undef ∧
    (addFile initState
      { name :=
          some { nm := [quoteChar], meta_addr := 9, par_addr := 2,
                 ntype := 5, flags := 1 },
        meta := none, root_inum := 3 }
      (some { atype := 1, id := 0, nm := some [quoteChar] }) 4 6).1.files = [] := by
  decide

/-- C4 amended: for every raw file name (and attribute-stream name, when
present), provided the escape buffer keeps its NUL terminator (the
written bytes do not fill all nlen + 1 allocated bytes) and the
formatted INSERT statement fits the 1024-byte snprintf buffer, the
stored name is the raw byte sequence with every quote character doubled
and every other byte preserved, and collapsing doubled quotes on the
stored name recovers the original byte sequence exactly; a call whose
statement overflows the buffer errors storing nothing, and the
saturated all-quotes case is undefined behavior with nothing stored. -/
theorem c4_name_roundtrip (st : DbState) (fsObjId : Int) (rawName : List Char)
    (size : Nat) :
    ((carvedInsertStmt fsObjId (maxObjId st.objects + 1)
          (escWhile rawName 0 (2 * rawName.length)) size).length ≤ 1023 →
      (addCarvedFileInfo st fsObjId rawName size).1.files =
        st.files ++ [carvedFileRow fsObjId (maxObjId st.objects + 1) rawName size] ∧
      (carvedFileRow fsObjId (maxObjId st.objects + 1) rawName size).name =
        sqlEscape rawName ∧
      sqlUnescape (sqlEscape rawName) = rawName) ∧
    (∀ (ff : FsFile) (fn : FsName) (parObjId : Int), ff.name = some fn →
      (fsFileInsertStmt ff none fn fsObjId (maxObjId st.objects + 1)
          (buildName fn.nm (attrNameOf none) (attrNLen none))).length ≤ 1023 →
      (addFile st ff none fsObjId parObjId).1.files =
        st.files ++ [fsFileRow ff none fn fsObjId (maxObjId st.objects + 1)] ∧
      (fsFileRow ff none fn fsObjId (maxObjId st.objects + 1)).name =
        sqlEscape fn.nm ∧
      sqlUnescape (fsFileRow ff none fn fsObjId (maxObjId st.objects + 1)).name =
        fn.nm) ∧
    (∀ (ff : FsFile) (fn : FsName) (a : FsAttr) (an : List Char) (parObjId : Int),
      ff.name = some fn → a.nm = some an →
      ¬(a.atype = TSK_FS_ATTR_TYPE_NTFS_IDXROOT ∧ an = i30) → an ≠ [] →
      ¬(buildName fn.nm (attrNameOf (some a)) (attrNLen (some a))).length =
        2 * (fn.nm.length + attrNLen (some a)) + 1 →
      (fsFileInsertStmt ff (some a) fn fsObjId (maxObjId st.objects + 1)
          (buildName fn.nm (attrNameOf (some a)) (attrNLen (some a)))).length ≤ 1023 →
      (addFile st ff (some a) fsObjId parObjId).1.files =
        st.files ++ [fsFileRow ff (some a) fn fsObjId (maxObjId st.objects + 1)] ∧
      (fsFileRow ff (some a) fn fsObjId (maxObjId st.objects + 1)).name =
        sqlEscape fn.nm ++ ':' :: sqlEscape an ∧
      sqlUnescape (fsFileRow ff (some a) fn fsObjId (maxObjId st.objects + 1)).name =
        fn.nm ++ ':' :: an) := by
  have hcolon : ¬(':' : Char) = quoteChar := by decide
  refine ⟨?_, ?_, ?_⟩
  · intro hfit
    have he := addCarvedFileInfo_ok st fsObjId rawName size hfit
    refine ⟨by rw [he], ?_, sqlUnescape_sqlEscape rawName⟩
    show escWhile rawName 0 (2 * rawName.length) = sqlEscape rawName
    exact escWhile_eq rawName 0 (2 * rawName.length) (by omega)
  · intro ff fn parObjId hn hfit
    have hsat := buildName_none_not_saturated fn.nm
    have he := addFile_some_ok st ff none fsObjId parObjId fn hn hsat hfit
    have hrow : (fsFileRow ff none fn fsObjId (maxObjId st.objects + 1)).name =
        sqlEscape fn.nm := by
      show buildName fn.nm (attrNameOf none) (attrNLen none) = sqlEscape fn.nm
      rw [show attrNLen none = 0 from rfl,
        buildName_eq fn.nm (attrNameOf none) 0 (by omega),
        if_neg (show ¬(0 : Nat) < 0 from by omega), List.append_nil]
    refine ⟨by rw [he], hrow, ?_⟩
    rw [hrow]
    exact sqlUnescape_sqlEscape fn.nm
  · intro ff fn a an parObjId hn ha hsup hne hsat hfit
    have hlen : attrNLen (some a) = an.length := by
      simp only [attrNLen, ha]
      rw [if_pos (not_and_or.mp hsup)]
    have hnm : attrNameOf (some a) = an := by
      simp only [attrNameOf, ha]
    have hpos : 0 < an.length := List.length_pos.mpr hne
    have hrow : (fsFileRow ff (some a) fn fsObjId (maxObjId st.objects + 1)).name =
        sqlEscape fn.nm ++ ':' :: sqlEscape an := by
      show buildName fn.nm (attrNameOf (some a)) (attrNLen (some a)) = _
      rw [hnm, hlen, buildName_eq fn.nm an an.length (le_refl _), if_pos hpos,
        List.take_length]
    have he := addFile_some_ok st ff (some a) fsObjId parObjId fn hn hsat hfit
    refine ⟨by rw [he], hrow, ?_⟩
    rw [hrow, sqlUnescape_sqlEscape_append, sqlUnescape_cons_ne ':' _ hcolon,
      sqlUnescape_sqlEscape]

theorem c4_name_roundtrip_witness :
    (addCarvedFileInfo initState 4 [quoteChar, 'a'] 10).1.files =
      initState.files ++
        [carvedFileRow 4 (maxObjId initState.objects + 1) [quoteChar, 'a'] 10] ∧
    sqlUnescape (sqlEscape [quoteChar, 'a']) = [quoteChar, 'a'] := by
  have h := c4_name_roundtrip initState 4 [quoteChar, 'a'] 10
  have h1 := h.1 (by decide)
  exact ⟨h1.1, h1.2.2⟩

/-- C5: over every sequence of allocating calls of every kind (image,
volume system, volume, filesystem, filesystem file, carved file), the
returned object ids are pairwise strictly increasing in allocation
order, all exceed every id present before the sequence ran (ids are
never reused), and they are pairwise distinct. -/
theorem c5_ids_unique_increasing (st : DbState) (calls : List AllocCall) :
    List.Pairwise (fun a b => a < b) (runAllocs st calls).2 ∧
    (∀ i ∈ (runAllocs st calls).2, maxObjId st.objects < i) ∧
    (runAllocs st calls).2.Nodup := by
  obtain ⟨_, hmem, hpw⟩ := runAllocs_spec calls st
  refine ⟨hpw, fun i hi => (hmem i hi).1, ?_⟩
  exact List.Pairwise.imp (fun h => ne_of_lt h) hpw

theorem c5_ids_unique_increasing_witness :
    (runAllocs initState
      [AllocCall.img 0 512, AllocCall.carved 1 ['x'] 9,
        AllocCall.carved 1 ['y'] 9]).2 = [1, 2, 3] ∧
    List.Pairwise (fun a b => a < b)
      (runAllocs initState
        [AllocCall.img 0 512, AllocCall.carved 1 ['x'] 9,
          AllocCall.carved 1 ['y'] 9]).2 := by
  have h := c5_ids_unique_increasing initState
    [AllocCall.img 0 512, AllocCall.carved 1 ['x'] 9, AllocCall.carved 1 ['y'] 9]
  exact ⟨by decide, h.1⟩

/-- C6 counterexample: a carved file whose 900-byte name makes the
formatted INSERT exceed the 1023 bytes snprintf keeps — the truncated
statement is malformed, the exec fails, and no tsk_files row is stored,
contradicting the claim that every carved-file ingestion stores the
described row. -/
theorem c6_counterexample :
    (addCarvedFileInfo initState 4 (List.replicate 900 'a') 2048).1.files = [] ∧
    (addCarvedFileInfo initState 4 (List.replicate 900 'a') 2048).2 = none := by
  decide

/-- C6 amended: provided the formatted INSERT statement fits the
1024-byte snprintf buffer, addCarvedFileInfo allocates the new object
directly under the given filesystem object id with no lookup (the
lookup counter is unchanged), and the stored row has source kind
DB_FILES_TYPE_CARVED, NULL attribute type and id, NULL metadata
address, NULL timestamps, mode, uid and gid, regular-file directory and
metadata types, unallocated flags in both flag columns, and the given
size; a call whose statement overflows that buffer fails and stores no
tsk_files row. -/
theorem c6_carved_row (st : DbState) (fsObjId : Int) (nm : List Char) (size : Nat)
    (hfit : (carvedInsertStmt fsObjId (maxObjId st.objects + 1)
        (escWhile nm 0 (2 * nm.length)) size).length ≤ 1023) :
    addCarvedFileInfo st fsObjId nm size =
      ({ st with
          objects := st.objects ++
            [⟨maxObjId st.objects + 1, some fsObjId, .DB_OBJECT_TYPE_FILE⟩],
          files := st.files ++
            [carvedFileRow fsObjId (maxObjId st.objects + 1) nm size] },
        some (maxObjId st.objects + 1)) ∧
    (addCarvedFileInfo st fsObjId nm size).1.lookups = st.lookups ∧
    (carvedFileRow fsObjId (maxObjId st.objects + 1) nm size).ftype =
      .DB_FILES_TYPE_CARVED ∧
    (carvedFileRow fsObjId (maxObjId st.objects + 1) nm size).fs_obj_id = fsObjId ∧
    (carvedFileRow fsObjId (maxObjId st.objects + 1) nm size).attr_type = none ∧
    (carvedFileRow fsObjId (maxObjId st.objects + 1) nm size).attr_id = none ∧
    (carvedFileRow fsObjId (maxObjId st.objects + 1) nm size).meta_addr = none ∧
    (carvedFileRow fsObjId (maxObjId st.objects + 1) nm size).crtime = none ∧
    (carvedFileRow fsObjId (maxObjId st.objects + 1) nm size).ctime = none ∧
    (carvedFileRow fsObjId (maxObjId st.objects + 1) nm size).atime = none ∧
    (carvedFileRow fsObjId (maxObjId st.objects + 1) nm size).mtime = none ∧
    (carvedFileRow fsObjId (maxObjId st.objects + 1) nm size).mode = none ∧
    (carvedFileRow fsObjId (maxObjId st.objects + 1) nm size).uid = none ∧
    (carvedFileRow fsObjId (maxObjId st.objects + 1) nm size).gid = none ∧
    (carvedFileRow fsObjId (maxObjId st.objects + 1) nm size).dir_type =
      TSK_FS_NAME_TYPE_REG ∧
    (carvedFileRow fsObjId (maxObjId st.objects + 1) nm size).meta_type =
      TSK_FS_META_TYPE_REG ∧
    (carvedFileRow fsObjId (maxObjId st.objects + 1) nm size).dir_flags =
      TSK_FS_NAME_FLAG_UNALLOC ∧
    (carvedFileRow fsObjId (maxObjId st.objects + 1) nm size).meta_flags =
      TSK_FS_NAME_FLAG_UNALLOC ∧
    (carvedFileRow fsObjId (maxObjId st.objects + 1) nm size).size =
      some (size : Int) := by
  have he := addCarvedFileInfo_ok st fsObjId nm size hfit
  refine ⟨he, ?_, rfl, rfl, rfl, rfl, rfl, rfl, rfl, rfl, rfl, rfl, rfl, rfl,
    rfl, rfl, rfl, rfl, rfl⟩
  rw [he]

theorem c6_carved_row_witness :
    addCarvedFileInfo initState 4 ['c', 'v'] 2048 =
      ({ initState with
          objects := [⟨1, some 4, .DB_OBJECT_TYPE_FILE⟩],
          files := [carvedFileRow 4 1 ['c', 'v'] 2048] },
        some 1) := by
  have h := c6_carved_row initState 4 ['c', 'v'] 2048 (by decide)
  exact h.1.trans (by decide)

/-- C7: an ingestion call on a record with no resolvable name returns
success while allocating nothing and writing nothing (Skip, in both
addFsFile and addFile), a skipped outcome arises only from an unnamed
record and leaves the state exactly unchanged, and every successful
insertion writes a row — so the unnamed case is the only one that
silently persists nothing. -/
theorem c7_skip_only_unnamed (st : DbState) (ff : FsFile) (fsAttr : Option FsAttr)
    (fsObjId : Int) :
    (ff.name = none → addFsFile st ff fsAttr fsObjId = (st, .skipped)) ∧
    (∀ parObjId, ff.name = none →
      addFile st ff fsAttr fsObjId parObjId = (st, .skipped)) ∧
    (∀ st2, addFsFile st ff fsAttr fsObjId = (st2, .skipped) →
      ff.name = none ∧ st2 = st) ∧
    (∀ st2 i, addFsFile st ff fsAttr fsObjId = (st2, .inserted i) →
      st2.files.length = st.files.length + 1) := by
  refine ⟨fun h => addFsFile_none st ff fsAttr fsObjId h, ?_, ?_, ?_⟩
  · intro parObjId h
    unfold addFile
    rw [h]
  · intro st2 hsk
    cases hn : ff.name with
    | none =>
      rw [addFsFile_none st ff fsAttr fsObjId hn] at hsk
      exact ⟨rfl, ((Prod.mk.injEq _ _ _ _).mp hsk).1.symm⟩
    | some fn =>
      exfalso
      by_cases hr : ff.root_inum = fn.meta_addr
      · rw [addFsFile_root st ff fsAttr fsObjId fn hn hr] at hsk
        exact addFile_some_ne_skipped st ff fsAttr fsObjId fsObjId fn hn
          (congrArg Prod.snd hsk)
      · cases hs : selectFileIdByMetaAddr st.files fn.par_addr fsObjId with
        | none =>
          rw [addFsFile_lookup_none st ff fsAttr fsObjId fn hn hr hs] at hsk
          exact absurd ((Prod.mk.injEq _ _ _ _).mp hsk).2 (by simp)
        | some p =>
          rw [addFsFile_lookup_some st ff fsAttr fsObjId fn p hn hr hs] at hsk
          exact addFile_some_ne_skipped { st with lookups := st.lookups + 1 }
            ff fsAttr fsObjId p fn hn (congrArg Prod.snd hsk)
  · intro st2 i hins
    cases hn : ff.name with
    | none =>
      rw [addFsFile_none st ff fsAttr fsObjId hn] at hins
      exact absurd ((Prod.mk.injEq _ _ _ _).mp hins).2 (by simp)
    | some fn =>
      by_cases hr : ff.root_inum = fn.meta_addr
      · rw [addFsFile_root st ff fsAttr fsObjId fn hn hr] at hins
        have h2 : (addFile st ff fsAttr fsObjId fsObjId).2 = .inserted i := by
          rw [hins]
        obtain ⟨_, hf⟩ := addFile_inserted_eq st ff fsAttr fsObjId fsObjId fn i hn h2
        have h1 : (addFile st ff fsAttr fsObjId fsObjId).1 = st2 := by rw [hins]
        rw [← h1, hf]
        simp
      · cases hs : selectFileIdByMetaAddr st.files fn.par_addr fsObjId with
        | none =>
          rw [addFsFile_lookup_none st ff fsAttr fsObjId fn hn hr hs] at hins
          exact absurd ((Prod.mk.injEq _ _ _ _).mp hins).2 (by simp)
        | some p =>
          rw [addFsFile_lookup_some st ff fsAttr fsObjId fn p hn hr hs] at hins
          have h2 : (addFile { st with lookups := st.lookups + 1 }
              ff fsAttr fsObjId p).2 = .inserted i := by
            rw [hins]
          obtain ⟨_, hf⟩ := addFile_inserted_eq { st with lookups := st.lookups + 1 }
            ff fsAttr fsObjId p fn i hn h2
          have h1 : (addFile { st with lookups := st.lookups + 1 }
              ff fsAttr fsObjId p).1 = st2 := by
            rw [hins]
          rw [← h1, hf]
          simp

theorem c7_skip_only_unnamed_witness :
    addFsFile initState { name := none, meta := none, root_inum := 2 } none 4 =
      (initState, .skipped) := by
  have h := c7_skip_only_unnamed initState
    { name := none, meta := none, root_inum := 2 } none 4
  exact h.1 rfl

/-- C9: addFsBlockInfo accepts a zero byte length and records the run
with the filesystem object id, file object id, starting byte offset and
byte length stored exactly as passed (modulo the printf int64
reinterpretations, which round-trip on the uint64 domain), and reading
the runs of that file back yields the appended pair unchanged. -/
theorem c9_record_run (st : DbState) (fsObjId fileObjId : Int)
    (byteStart byteLen : Nat) (hs : byteStart < 2 ^ 64)
    (hf0 : 0 ≤ fileObjId) (hf1 : fileObjId < 2 ^ 63) :
    (addFsBlockInfo st fsObjId fileObjId byteStart byteLen).layout =
      st.layout ++
        [⟨fsObjId, int64OfUInt64 byteStart, byteLen, uint64OfInt64 fileObjId⟩] ∧
    (uint64OfInt64 fileObjId : Int) = fileObjId ∧
    uint64OfInt64 (int64OfUInt64 byteStart) = byteStart ∧
    getRuns (addFsBlockInfo st fsObjId fileObjId byteStart byteLen) fsObjId fileObjId =
      getRuns st fsObjId fileObjId ++ [(byteStart, byteLen)] := by
  refine ⟨rfl, ?_, uint64_int64_roundtrip byteStart hs, ?_⟩
  · unfold uint64OfInt64
    omega
  · unfold getRuns addFsBlockInfo
    simp only [List.filter_append, List.map_append]
    rw [List.filter_cons]
    rw [if_pos (by simp)]
    simp only [List.filter_nil, List.map_cons, List.map_nil,
      uint64_int64_roundtrip byteStart hs]

theorem c9_record_run_witness :
    getRuns (addFsBlockInfo initState 3 7 100 0) 3 7 =
      getRuns initState 3 7 ++ [(100, 0)] := by
  have h := c9_record_run initState 3 7 100 0 (by decide) (by decide) (by decide)
  exact h.2.2.2

/-- C10: the cleanup operation releases the prepared parent-lookup
statement yet returns the failure code 1 on every call — both when the
statement was still prepared and when it had already been released (a
second cleanup also returns 1) — so a caller treating a nonzero return
as an error observes a failure on every cleanup. -/
theorem c10_cleanup_returns_one (s : SessionStmts) :
    (cleanup s).2 = 1 ∧
    (cleanup s).1.selectStmtPrepared = false ∧
    (cleanup (cleanup s).1).2 = 1 := by
  cases s with
  | mk b => cases b <;> simp [cleanup]
